import Mathlib

/-!
Shallow embedding of `src/xPlatAppx/PAL/Signature/Win32/SignatureValidator.cpp`
(namespace `xPlat`).

The validator drives a fixed set of Win32 crypto primitives
(`CryptQueryObject`, `CryptMsgGetParam`, `CertGetSubjectCertificateFromStore`,
`CertGetCertificateChain`, `CertVerifyCertificateChainPolicy`,
`CertGetEnhancedKeyUsage`, `CertEnumCertificatesInStore`,
`CertVerifySubjectCertificateContext`, `CertFindExtension` and
`CryptDecodeObjectEx`).  Those primitives are external to the repository, so
their per-input outcomes are modelled as fields of the input data: a
`Blob` carries the results the two `CryptQueryObject` calls would produce on
its bytes, a `Cert` carries the results the per-certificate primitives would
produce, and a `Chain` carries the results of the two
`CertVerifyCertificateChainPolicy` calls.  The functions of the source file
are then translated over this data, exception throws becoming
`Except.error`.
-/

namespace xPlat

/-- The single outward error kind of the validator:
`xPlat::Error::AppxSignatureInvalid` (every `throw` in the file uses it, and
`ThrowErrorIf` / `ThrowErrorIfNot` in `Validate` are invoked with it). -/
inductive Err where
  | SignatureInvalid
deriving DecidableEq

/-- Result of one `CertGetEnhancedKeyUsage` retrieval (extension-only or
property-only flag): the call can fail with `CRYPT_E_NOT_FOUND`
(`notFound`, a soft outcome in the source), succeed with a (possibly empty)
list of usage identifier strings (`found`; note the returned
`CERT_ENHKEY_USAGE` structure has positive byte size even when
`cUsageIdentifier` is zero, so the buffer in the source is nonempty exactly
when the call succeeded), or fail with any other error (`fail`, which the
source turns into a throw). -/
inductive EKURead where
  | notFound
  | found (oids : List String)
  | fail
deriving DecidableEq

/-- Outcome of decoding the `szOID_BASIC_CONSTRAINTS2` extension in
`IsCACert`: the extension may be absent (`CertFindExtension` returns null),
present but undecodable (`CryptDecodeObjectEx` fails), or decoded with an
`fCA` flag. -/
inductive BasicConstraints where
  | noExt
  | decodeFail
  | decoded (fCA : Bool)
deriving DecidableEq

/-- Result of the two `CertVerifyCertificateChainPolicy` calls on a chain
context.  For each of the two policies used by the source
(`CERT_CHAIN_POLICY_MICROSOFT_ROOT` and `CERT_CHAIN_POLICY_AUTHENTICODE`)
the call has a boolean return (whether the policy could be evaluated) and a
`policyStatus.dwError` value (0 when the chain satisfies the policy). -/
structure Chain where
  msRootCallOk : Bool
  msRootStatus : Nat
  authCallOk : Bool
  authStatus : Nat
deriving DecidableEq

/-- A certificate context, together with the outcomes of the external
per-certificate primitives on it:
`issuer` / `subject` are the encoded names compared by
`CertCompareCertificateName`; `serial` is the serial number;
`basicConstraints` is the decoded basic-constraints extension;
`verifySubjectCallOk` is the boolean return of
`CertVerifySubjectCertificateContext` (certificate against itself) and
`selfSigVerifies` records whether that check cleared the
`CERT_STORE_SIGNATURE_FLAG` bit (true exactly when the self-signature
verified); `extEKU` / `propEKU` are the two `CertGetEnhancedKeyUsage`
retrievals; `chain` is the chain context `CertGetCertificateChain` builds
for this certificate over the message store (`none` when no chain can be
built and the call fails). -/
structure Cert where
  issuer : String
  subject : String
  serial : String
  basicConstraints : BasicConstraints
  verifySubjectCallOk : Bool
  selfSigVerifies : Bool
  extEKU : EKURead
  propEKU : EKURead
  chain : Option Chain
deriving DecidableEq

/-- The content type reported by `CryptQueryObject` in `GetCertContext`,
among the three requested kinds (`CERT_QUERY_CONTENT_FLAG_CERT`,
`..._PKCS7_SIGNED`, `..._PKCS7_UNSIGNED`). -/
inductive ContentType where
  | cert
  | pkcs7Signed
  | pkcs7Unsigned
deriving DecidableEq

/-- The view of a blob produced by the `CryptQueryObject` call of
`GetCertChainContext` (content flag `CERT_QUERY_CONTENT_FLAG_PKCS7_SIGNED`):
the certificate store contents in enumeration order, and the signer-info
data of the signed message: `signerInfoSize` is the byte size reported by
the first `CryptMsgGetParam` call (`none` when that call fails),
`signerSecondCallOk` is the outcome of the second, data-producing
`CryptMsgGetParam` call, and `signerIssuer` / `signerSerial` are the
`Issuer` and `SerialNumber` fields of the extracted `CMSG_SIGNER_INFO`. -/
structure Pkcs7View where
  certs : List Cert
  signerInfoSize : Option Nat
  signerSecondCallOk : Bool
  signerIssuer : String
  signerSerial : String
deriving DecidableEq

/-- A signature blob (the bytes following the 4-byte header), abstracted by
the results of the two distinct `CryptQueryObject` calls made on it:
`pkcs7Signed` is the signed-message view used by `GetCertChainContext`
(`none` when the call fails, i.e. the blob is not a well-formed PKCS7
signed message), and `certOrPkcs7` is the store view used by
`GetCertContext` with expected content types CERT, PKCS7-signed and
PKCS7-unsigned (`none` when that call fails). -/
structure Blob where
  pkcs7Signed : Option Pkcs7View
  certOrPkcs7 : Option (ContentType × List Cert)
deriving DecidableEq

/-- An input stream for `Validate`: its total byte length, the first 4
bytes read as the file-ID `DWORD`, and the remaining bytes as `Blob`.  The
stream is seekable and reads of the modelled stream return the requested
bytes, so the short-read guard of the source cannot fire here. -/
structure P7xStream where
  length : Nat
  magic : Nat
  blob : Blob

/-- Modelled from the spec (the `APPX_VALIDATION_OPTION` enumeration is
declared in a header outside the provided source): the caller-supplied flag
set with its two recognized bits, `SkipSignature` and `AllowUnknownOrigin`. -/
structure ValidationOption where
  skipSignature : Bool
  allowUnknownOrigin : Bool

/-- Modelled from the spec (`P7X_FILE_ID` is defined in `AppxSignature.hpp`,
outside the provided source): the fixed 4-byte container magic constant; the
source uses `sizeof(P7X_FILE_ID) = 4` as the header size. -/
def P7X_FILE_ID : Nat := 0x58434b50

/-- `STRSAFE_MAX_CCH`, the maximum character count of a `strsafe` string
(2^31 - 1), used as the upper sanity bound on the signer-info size. -/
def STRSAFE_MAX_CCH : Nat := 2147483647

/-- Modelled from the spec (`OID::WindowsStore` is defined outside the
provided source): the well-known distribution-store EKU object identifier
string that `DoesSignatureCertContainStoreEKU` compares against. -/
def OID.WindowsStore : String := "1.3.6.1.4.1.311.76.3.1"

/-- `CertGetSubjectCertificateFromStore`: locate the certificate in the
store whose issuer and serial number equal the given identity (the store is
searched in order; the first match is returned). -/
def findCertByIdentity (certs : List Cert) (issuer serial : String) : Option Cert :=
  certs.find? (fun c => c.issuer == issuer && c.serial == serial)

/-- `GetCertChainContext` (source lines 61-151): query the blob as a PKCS7
signed message; read the signer-info size (throw on failure, on size zero
and on size at least `STRSAFE_MAX_CCH`); read the signer info; locate the
signing certificate in the message store by issuer and serial number (throw
when absent); build its certificate chain (throw when
`CertGetCertificateChain` fails). -/
def GetCertChainContext (b : Blob) : Except Err Chain :=
  match b.pkcs7Signed with
  | none => .error .SignatureInvalid
  | some v =>
    match v.signerInfoSize with
    | none => .error .SignatureInvalid
    | some sz =>
      if sz = 0 ∨ sz ≥ STRSAFE_MAX_CCH then .error .SignatureInvalid
      else if ¬ v.signerSecondCallOk then .error .SignatureInvalid
      else
        match findCertByIdentity v.certs v.signerIssuer v.signerSerial with
        | none => .error .SignatureInvalid
        | some c =>
          match c.chain with
          | none => .error .SignatureInvalid
          | some ch => .ok ch

/-- `GetEnhancedKeyUsage` (source lines 153-229): retrieve the
extension-only EKU (throw when the call fails with an error other than
`CRYPT_E_NOT_FOUND`), then the property-only EKU (same throw rule).  If the
extension retrieval succeeded (its buffer is nonempty) take its
identifiers; otherwise, if the property retrieval succeeded take its
identifiers; otherwise the list stays empty.  The returned boolean is
whether the chosen identifier list is nonempty. -/
def GetEnhancedKeyUsage (c : Cert) : Except Err (Bool × List String) :=
  match c.extEKU with
  | .fail => .error .SignatureInvalid
  | other =>
    match c.propEKU with
    | .fail => .error .SignatureInvalid
    | _ =>
      match other with
      | .found l => .ok (decide (0 < l.length), l)
      | _ =>
        match c.propEKU with
        | .found l => .ok (decide (0 < l.length), l)
        | _ => .ok (false, [])

/-- `IsMicrosoftTrustedChain` (source lines 231-246): call
`CertVerifyCertificateChainPolicy` with `CERT_CHAIN_POLICY_MICROSOFT_ROOT`
and the application-root flag, and return the boolean return value of that
call; the `policyStatus` structure is passed but never read. -/
def IsMicrosoftTrustedChain (ch : Chain) : Bool :=
  ch.msRootCallOk

/-- `IsAuthenticodeTrustedChain` (source lines 248-263): call
`CertVerifyCertificateChainPolicy` with `CERT_CHAIN_POLICY_AUTHENTICODE`
and return the boolean return value of that call; the `policyStatus`
structure is passed but never read. -/
def IsAuthenticodeTrustedChain (ch : Chain) : Bool :=
  ch.authCallOk

/-- The two named trust policies the Chain Trust Evaluator can apply. -/
inductive TrustPolicy where
  | microsoftRoot
  | authenticode
deriving DecidableEq

/-- Modelled from the spec: the policy-verification verdict for a built
chain under a named policy.  Per the platform contract of
`CertVerifyCertificateChainPolicy`, the chain satisfies the policy exactly
when the call succeeds and `policyStatus.dwError` is 0; the boolean return
of the call alone only reports that the policy could be evaluated. -/
def chainSatisfiesPolicy (ch : Chain) (p : TrustPolicy) : Bool :=
  match p with
  | .microsoftRoot => ch.msRootCallOk && ch.msRootStatus == 0
  | .authenticode => ch.authCallOk && ch.authStatus == 0

/-- `IsCACert` (source lines 265-292): find the basic-constraints-2
extension; when present and decodable, return its `fCA` flag; otherwise
return false. -/
def IsCACert (c : Cert) : Bool :=
  match c.basicConstraints with
  | .decoded fCA => fCA
  | _ => false

/-- `IsCertificateSelfSigned` (source lines 294-320): reject a nonzero
`dwFlags` argument; return false when the issuer name differs from the
subject name; otherwise verify the certificate signature against the
certificate itself (`CertVerifySubjectCertificateContext` with
`CERT_STORE_SIGNATURE_FLAG`) and return false when the call fails or the
flag bit stays set (signature did not verify); return true otherwise.  (The
null-context guard of the source has no counterpart here because modelled
certificates are values.) -/
def IsCertificateSelfSigned (c : Cert) (dwFlags : Nat) : Bool :=
  if dwFlags ≠ 0 then false
  else if c.issuer ≠ c.subject then false
  else if ¬ c.verifySubjectCallOk ∨ ¬ c.selfSigVerifies then false
  else true

/-- `GetCertContext` (source lines 322-380): query the blob with expected
content types CERT, PKCS7-signed and PKCS7-unsigned (throw on failure).
When the reported content type is CERT, return the first enumerated
certificate.  Otherwise enumerate the store in order, skipping every
certificate that is self-signed or a CA, and return the first that is
neither; when enumeration exhausts, the returned context is null
(`none`). -/
def GetCertContext (b : Blob) : Except Err (Option Cert) :=
  match b.certOrPkcs7 with
  | none => .error .SignatureInvalid
  | some (ct, certs) =>
    if ct = ContentType.cert then .ok certs.head?
    else .ok (certs.find? (fun c => !(IsCertificateSelfSigned c 0 || IsCACert c)))

/-- `DoesSignatureCertContainStoreEKU` (source lines 382-402): resolve the
certificate context from the blob, read its EKU list, and return whether
the read succeeded with a nonempty list containing `OID::WindowsStore`.  (A
null certificate context makes `CertGetEnhancedKeyUsage` fail with an error
other than `CRYPT_E_NOT_FOUND`, which `GetEnhancedKeyUsage` turns into a
throw; that case is modelled as an error here.) -/
def DoesSignatureCertContainStoreEKU (b : Blob) : Except Err Bool :=
  match GetCertContext b with
  | .error e => .error e
  | .ok none => .error .SignatureInvalid
  | .ok (some c) =>
    match GetEnhancedKeyUsage c with
    | .error e => .error e
    | .ok (r, oids) => .ok (r && oids.contains OID.WindowsStore)

/-- `IsStoreOrigin` (source lines 405-414): when the signature certificate
carries the store EKU, build the chain context and evaluate the Microsoft
root policy; otherwise false. -/
def IsStoreOrigin (b : Blob) : Except Err Bool :=
  match DoesSignatureCertContainStoreEKU b with
  | .error e => .error e
  | .ok hasEKU =>
    if hasEKU then
      match GetCertChainContext b with
      | .error e => .error e
      | .ok ch => .ok (IsMicrosoftTrustedChain ch)
    else .ok false

/-- `IsAuthenticodeOrigin` (source lines 417-425): build the chain context
and evaluate the Authenticode policy. -/
def IsAuthenticodeOrigin (b : Blob) : Except Err Bool :=
  match GetCertChainContext b with
  | .error e => .error e
  | .ok ch => .ok (IsAuthenticodeTrustedChain ch)

/-- `SignatureValidator::Validate` (source lines 427-458): return false at
once when `SkipSignature` is set (the digests are not read); throw
`SignatureInvalid` when the stream length is at most `sizeof(P7X_FILE_ID)`
(4) or above `2 << 20` (2097152); read the 4-byte file ID and throw when it
differs from `P7X_FILE_ID`; read the remaining bytes; then throw
`SignatureInvalid` unless `IsStoreOrigin`, or else `IsAuthenticodeOrigin`,
or else the `AllowUnknownOrigin` bit holds (C++ `||` evaluates the three in
short-circuit order); return true otherwise.  The inout `digests` map is
never read or written on any path (the source marks digest reading as not
implemented), which the model renders by threading an arbitrary value
through unchanged. -/
def SignatureValidator.Validate {α : Type} (option : ValidationOption)
    (stream : P7xStream) (digests : α) : Except Err (Bool × α) :=
  if option.skipSignature then .ok (false, digests)
  else if stream.length ≤ 4 ∨ stream.length > 2097152 then .error .SignatureInvalid
  else if stream.magic ≠ P7X_FILE_ID then .error .SignatureInvalid
  else
    match IsStoreOrigin stream.blob with
    | .error e => .error e
    | .ok true => .ok (true, digests)
    | .ok false =>
      match IsAuthenticodeOrigin stream.blob with
      | .error e => .error e
      | .ok true => .ok (true, digests)
      | .ok false =>
        if option.allowUnknownOrigin then .ok (true, digests)
        else .error .SignatureInvalid

/-- A successful `List.find?` splits the list at the first hit: everything
before the returned element fails the predicate. -/
theorem find?_split {α : Type} (p : α → Bool) :
    ∀ (l : List α) (c : α), l.find? p = some c →
      ∃ l1 l2, l = l1 ++ c :: l2 ∧ ∀ x ∈ l1, p x = false := by
  intro l
  induction l with
  | nil => intro c h; simp [List.find?] at h
  | cons a t ih =>
    intro c h
    cases hp : p a with
    | true =>
      rw [List.find?_cons_of_pos _ hp] at h
      obtain rfl : a = c := by injection h
      exact ⟨[], t, rfl, by simp⟩
    | false =>
      rw [List.find?_cons_of_neg _ (by simp [hp])] at h
      obtain ⟨l1, l2, rfl, hall⟩ := ih c h
      refine ⟨a :: l1, l2, rfl, ?_⟩
      intro x hx
      rcases List.mem_cons.mp hx with rfl | hx
      · exact hp
      · exact hall x hx

/-- A certificate that is well-formed but untrusted: no store EKU, and a
chain context on which both policy calls fail, so both origin checks return
false without throwing. -/
def c1cert : Cert :=
  { issuer := "CN=I", subject := "CN=E", serial := "01",
    basicConstraints := .decoded false, verifySubjectCallOk := true,
    selfSigVerifies := true, extEKU := .notFound, propEKU := .notFound,
    chain := some ⟨false, 1, false, 1⟩ }

/-- A well-formed blob around `c1cert`: both `CryptQueryObject` calls
succeed, the signer info is present and in bounds, and the signer identity
matches `c1cert`. -/
def c1view : Pkcs7View :=
  { certs := [c1cert], signerInfoSize := some 64, signerSecondCallOk := true,
    signerIssuer := "CN=I", signerSerial := "01" }

/-- A well-formed blob around `c1cert`: both `CryptQueryObject` calls
succeed. -/
def c1blob : Blob :=
  { pkcs7Signed := some c1view, certOrPkcs7 := some (.cert, [c1cert]) }

/-- A stream wrapping `c1blob` that passes the length and magic checks. -/
def c1stream : P7xStream := { length := 100, magic := P7X_FILE_ID, blob := c1blob }

/-- C1 counterexample: on a concrete well-formed signature that fails both
origin checks, with no options set, `Validate` does not report rejection as
a normal `false` return: it throws `SignatureInvalid` (the `ThrowErrorIfNot`
at source line 452), the same error kind raised for malformed input. -/
theorem C1_counterexample :
    IsStoreOrigin c1blob = .ok false ∧
    IsAuthenticodeOrigin c1blob = .ok false ∧
    SignatureValidator.Validate ⟨false, false⟩ c1stream (0 : Nat) =
      .error .SignatureInvalid :=
  ⟨rfl, rfl, rfl⟩

/-- C1 amended: for every well-formed signature that fails both origin
checks without `AllowUnknownOrigin`, `Validate` throws `SignatureInvalid`
instead of returning false, and the only way `Validate` returns false is
the `SkipSignature` path — so valid-but-untrusted input is not
distinguishable from malformed input by the outcome kind. -/
theorem C1_untrusted_throws :
    (∀ (opts : ValidationOption) (s : P7xStream) (α : Type) (d : α),
      opts.skipSignature = false → 4 < s.length → s.length ≤ 2097152 →
      s.magic = P7X_FILE_ID →
      IsStoreOrigin s.blob = .ok false →
      IsAuthenticodeOrigin s.blob = .ok false →
      opts.allowUnknownOrigin = false →
      SignatureValidator.Validate opts s d = .error .SignatureInvalid) ∧
    (∀ (opts : ValidationOption) (s : P7xStream) (α : Type) (d r : α),
      SignatureValidator.Validate opts s d = .ok (false, r) →
      opts.skipSignature = true) := by
  constructor
  · intro opts s α d hskip h1 h2 hm hso hao hal
    unfold SignatureValidator.Validate
    rw [hskip, if_neg (by simp), if_neg (by omega), if_neg (by simp [hm]), hso]
    simp only
    rw [hao]
    simp only
    rw [hal]
    simp
  · intro opts s α d r h
    by_cases hb : opts.skipSignature = true
    · exact hb
    · exfalso
      unfold SignatureValidator.Validate at h
      rw [if_neg hb] at h
      split at h
      · exact Except.noConfusion h
      · split at h
        · exact Except.noConfusion h
        · split at h
          · exact Except.noConfusion h
          · simp at h
          · split at h
            · exact Except.noConfusion h
            · simp at h
            · split at h
              · simp at h
              · exact Except.noConfusion h

/-- C1 witness: the amended statement applied at the concrete untrusted
input. -/
theorem C1_witness :
    SignatureValidator.Validate ⟨false, false⟩ c1stream (0 : Nat) =
      .error .SignatureInvalid :=
  C1_untrusted_throws.1 ⟨false, false⟩ c1stream Nat 0 rfl (by decide) (by decide)
    rfl rfl rfl rfl

/-- C2: for a well-formed stream (length and magic pass, both origin checks
evaluate without throwing), `Validate` accepts (returns true) exactly when
the store-origin check is true, or the authenticode-origin check is true,
or `AllowUnknownOrigin` is set. -/
theorem C2_accept_iff (opts : ValidationOption) (s : P7xStream) (α : Type)
    (d : α) (so ao : Bool)
    (hskip : opts.skipSignature = false)
    (h1 : 4 < s.length) (h2 : s.length ≤ 2097152) (hm : s.magic = P7X_FILE_ID)
    (hso : IsStoreOrigin s.blob = .ok so)
    (hao : IsAuthenticodeOrigin s.blob = .ok ao) :
    SignatureValidator.Validate opts s d = .ok (true, d) ↔
      (so = true ∨ ao = true ∨ opts.allowUnknownOrigin = true) := by
  unfold SignatureValidator.Validate
  rw [hskip, if_neg (by simp), if_neg (by omega), if_neg (by simp [hm]), hso]
  cases so
  · simp only
    rw [hao]
    cases ao
    · simp only
      cases hal : opts.allowUnknownOrigin
      · simp
      · simp
    · simp
  · simp

/-- A well-formed untrusted blob used to witness C2. -/
def c2cert : Cert :=
  { issuer := "CN=I2", subject := "CN=E2", serial := "02",
    basicConstraints := .decoded false, verifySubjectCallOk := true,
    selfSigVerifies := true, extEKU := .notFound, propEKU := .notFound,
    chain := some ⟨false, 1, false, 1⟩ }

/-- Blob around `c2cert`, well-formed on both query paths. -/
def c2view : Pkcs7View :=
  { certs := [c2cert], signerInfoSize := some 64, signerSecondCallOk := true,
    signerIssuer := "CN=I2", signerSerial := "02" }

/-- Blob around `c2cert`, well-formed on both query paths. -/
def c2blob : Blob :=
  { pkcs7Signed := some c2view, certOrPkcs7 := some (.cert, [c2cert]) }

/-- Stream wrapping `c2blob`. -/
def c2stream : P7xStream := { length := 100, magic := P7X_FILE_ID, blob := c2blob }

/-- C2 witness: the equivalence applied at a concrete well-formed input
with both checks false and `AllowUnknownOrigin` set. -/
theorem C2_witness :
    SignatureValidator.Validate ⟨false, true⟩ c2stream (0 : Nat) = .ok (true, 0) ↔
      (false = true ∨ false = true ∨ true = true) :=
  C2_accept_iff ⟨false, true⟩ c2stream Nat 0 false false rfl (by decide) (by decide)
    rfl rfl rfl

/-- C8: when validation is not skipped and the total stream length is at
most the 4-byte header size or above 2097152 bytes, `Validate` fails with
`SignatureInvalid`; the magic word and the blob are arbitrary, so the
embedded blob is never parsed. -/
theorem C8_length_bounds (opts : ValidationOption) (s : P7xStream) (α : Type)
    (d : α) (hskip : opts.skipSignature = false)
    (hlen : s.length ≤ 4 ∨ s.length > 2097152) :
    SignatureValidator.Validate opts s d = .error .SignatureInvalid := by
  unfold SignatureValidator.Validate
  rw [hskip, if_neg (by simp), if_pos hlen]

/-- C8 witness: a 3-byte stream with garbage magic and a blob on which both
parses would fail is rejected up front. -/
theorem C8_witness :
    SignatureValidator.Validate ⟨false, false⟩ ⟨3, 0, ⟨none, none⟩⟩ (0 : Nat) =
      .error .SignatureInvalid :=
  C8_length_bounds ⟨false, false⟩ ⟨3, 0, ⟨none, none⟩⟩ Nat 0 rfl (Or.inl (by decide))

/-- C9: with `SkipSignature` set, `Validate` returns false immediately for
every stream (including garbage that would fail the magic check), without
throwing, and the digests value is passed through unread and unchanged. -/
theorem C9_skip_short_circuit (opts : ValidationOption) (s : P7xStream)
    (α : Type) (d : α) (hskip : opts.skipSignature = true) :
    SignatureValidator.Validate opts s d = .ok (false, d) := by
  unfold SignatureValidator.Validate
  rw [hskip]
  simp

/-- C9 witness: skip applied to a garbage stream (wrong magic, unparsable
blob). -/
theorem C9_witness :
    SignatureValidator.Validate ⟨true, false⟩ ⟨100, 0, ⟨none, none⟩⟩ (7 : Nat) =
      .ok (false, 7) :=
  C9_skip_short_circuit ⟨true, false⟩ ⟨100, 0, ⟨none, none⟩⟩ Nat 7 rfl

/-- A certificate whose chain cannot be built (`CertGetCertificateChain`
fails) and which carries no store EKU. -/
def c3cert : Cert :=
  { issuer := "CN=I3", subject := "CN=E3", serial := "03",
    basicConstraints := .decoded false, verifySubjectCallOk := true,
    selfSigVerifies := true, extEKU := .notFound, propEKU := .notFound,
    chain := none }

/-- Signed-message view around `c3cert` with valid signer info matching it. -/
def c3view : Pkcs7View :=
  { certs := [c3cert], signerInfoSize := some 64, signerSecondCallOk := true,
    signerIssuer := "CN=I3", signerSerial := "03" }

/-- Blob around `c3cert`: both queries succeed, but chain building fails. -/
def c3blob : Blob :=
  { pkcs7Signed := some c3view, certOrPkcs7 := some (.cert, [c3cert]) }

/-- Stream wrapping `c3blob` that passes the length and magic checks. -/
def c3stream : P7xStream := { length := 100, magic := P7X_FILE_ID, blob := c3blob }

/-- C3 counterexample: on a concrete input where chain building fails, the
authenticode-origin check does not report false — it throws
`SignatureInvalid` — and `Validate` fails with that error even though
`AllowUnknownOrigin` is set. -/
theorem C3_counterexample :
    IsStoreOrigin c3blob = .ok false ∧
    IsAuthenticodeOrigin c3blob = .error .SignatureInvalid ∧
    SignatureValidator.Validate ⟨false, true⟩ c3stream (0 : Nat) =
      .error .SignatureInvalid :=
  ⟨rfl, rfl, rfl⟩

/-- C3 amended: when chain building cannot construct a chain for the
identified signer, `GetCertChainContext` throws `SignatureInvalid`;
`IsAuthenticodeOrigin` propagates the throw instead of reporting false, and
`Validate` (with `SkipSignature` unset) fails with `SignatureInvalid` on
every stream carrying such a blob, even when `AllowUnknownOrigin` is
set. -/
theorem C3_chain_failure_throws (b : Blob) (v : Pkcs7View) (sz : Nat) (c : Cert)
    (hv : b.pkcs7Signed = some v)
    (hsz : v.signerInfoSize = some sz) (h0 : 0 < sz)
    (hmax : sz < STRSAFE_MAX_CCH)
    (h2 : v.signerSecondCallOk = true)
    (hfind : findCertByIdentity v.certs v.signerIssuer v.signerSerial = some c)
    (hchain : c.chain = none) :
    GetCertChainContext b = .error .SignatureInvalid ∧
    IsAuthenticodeOrigin b = .error .SignatureInvalid ∧
    (∀ (opts : ValidationOption) (s : P7xStream) (α : Type) (d : α),
      opts.skipSignature = false → s.blob = b →
      SignatureValidator.Validate opts s d = .error .SignatureInvalid) := by
  have hg : GetCertChainContext b = .error .SignatureInvalid := by
    unfold GetCertChainContext
    rw [hv]
    simp only
    rw [hsz]
    simp only
    rw [if_neg (by omega), h2, if_neg (by simp), hfind]
    simp only
    rw [hchain]
  have ha : IsAuthenticodeOrigin b = .error .SignatureInvalid := by
    unfold IsAuthenticodeOrigin
    rw [hg]
  refine ⟨hg, ha, ?_⟩
  intro opts s α d hskip hblob
  unfold SignatureValidator.Validate
  rw [hskip, if_neg (by simp)]
  by_cases hl : s.length ≤ 4 ∨ s.length > 2097152
  · rw [if_pos hl]
  · rw [if_neg hl]
    by_cases hmg : s.magic ≠ P7X_FILE_ID
    · rw [if_pos hmg]
    · rw [if_neg hmg, hblob]
      cases hso : IsStoreOrigin b with
      | error e => cases e; rfl
      | ok so =>
        cases so
        · rw [ha]
        · exfalso
          unfold IsStoreOrigin at hso
          cases hD : DoesSignatureCertContainStoreEKU b with
          | error e => rw [hD] at hso; exact Except.noConfusion hso
          | ok hasEKU =>
            rw [hD] at hso
            cases hasEKU
            · simp at hso
            · simp only [if_pos] at hso
              rw [hg] at hso
              exact Except.noConfusion hso

/-- C3 witness: the amended statement applied at the concrete
chain-building failure, with `AllowUnknownOrigin` set. -/
theorem C3_witness :
    SignatureValidator.Validate ⟨false, true⟩ c3stream (0 : Nat) =
      .error .SignatureInvalid :=
  (C3_chain_failure_throws c3blob c3view 64 c3cert rfl rfl (by decide) (by decide)
    rfl rfl rfl).2.2 ⟨false, true⟩ c3stream Nat 0 rfl rfl

/-- A chain context on which both `CertVerifyCertificateChainPolicy` calls
succeed as calls but report policy failure in `policyStatus.dwError`
(0x800B0109 is `CERT_E_UNTRUSTEDROOT`). -/
def c4chain : Chain :=
  { msRootCallOk := true, msRootStatus := 0x800B0109,
    authCallOk := true, authStatus := 0x800B0109 }

/-- C4: the chain trust evaluators return the boolean return value of
`CertVerifyCertificateChainPolicy` — which only says the policy could be
evaluated — and never read `policyStatus.dwError`, so on a chain that fails
both policies (untrusted root) they return true while the actual policy
verdict is false.  The returned boolean is not the policy-verification
result, contradicting the evaluated-policy contract and the functions own
descriptions. -/
theorem C4_policy_status_ignored :
    IsMicrosoftTrustedChain c4chain = true ∧
    IsAuthenticodeTrustedChain c4chain = true ∧
    chainSatisfiesPolicy c4chain .microsoftRoot = false ∧
    chainSatisfiesPolicy c4chain .authenticode = false :=
  ⟨rfl, rfl, rfl, rfl⟩

/-- A certificate whose extension-level EKU is present but empty while its
property-level EKU contains the store OID. -/
def c5cert : Cert :=
  { issuer := "CN=I5", subject := "CN=E5", serial := "05",
    basicConstraints := .decoded false, verifySubjectCallOk := true,
    selfSigVerifies := true, extEKU := .found [],
    propEKU := .found [OID.WindowsStore], chain := none }

/-- Blob resolving to `c5cert` on the certificate path. -/
def c5blob : Blob :=
  { pkcs7Signed := none, certOrPkcs7 := some (.cert, [c5cert]) }

/-- C5 counterexample: when the extension-level EKU is present but empty
and the property-level EKU contains the store OID, the code does not fall
back to the property: EKU retrieval returns the empty extension list and
the classifier reports the store OID as absent, against the claimed
property fallback. -/
theorem C5_counterexample :
    GetEnhancedKeyUsage c5cert = .ok (false, []) ∧
    DoesSignatureCertContainStoreEKU c5blob = .ok false :=
  ⟨rfl, rfl⟩

/-- C5 amended: EKU retrieval prefers the extension-level EKU whenever its
retrieval succeeds — even with an empty identifier list — and falls back to
the property-level EKU only when the extension-level retrieval fails with
not-found; when neither source is present the list is empty and store-origin
classification returns false, and when the extension is absent and the
property carries the store OID the classifier reports it present. -/
theorem C5_eku_precedence :
    (∀ (c : Cert) (l : List String), c.extEKU = .found l → c.propEKU ≠ .fail →
      GetEnhancedKeyUsage c = .ok (decide (0 < l.length), l)) ∧
    (∀ (c : Cert) (l : List String), c.extEKU = .notFound → c.propEKU = .found l →
      GetEnhancedKeyUsage c = .ok (decide (0 < l.length), l)) ∧
    (∀ c : Cert, c.extEKU = .notFound → c.propEKU = .notFound →
      GetEnhancedKeyUsage c = .ok (false, [])) ∧
    (∀ (b : Blob) (c : Cert), b.certOrPkcs7 = some (.cert, [c]) →
      c.extEKU = .notFound → c.propEKU = .notFound →
      DoesSignatureCertContainStoreEKU b = .ok false) ∧
    (∀ (b : Blob) (c : Cert), b.certOrPkcs7 = some (.cert, [c]) →
      c.extEKU = .notFound → c.propEKU = .found [OID.WindowsStore] →
      DoesSignatureCertContainStoreEKU b = .ok true) := by
  refine ⟨?_, ?_, ?_, ?_, ?_⟩
  · intro c l hext hprop
    cases hp : c.propEKU with
    | fail => exact absurd hp hprop
    | notFound => simp [GetEnhancedKeyUsage, hext, hp]
    | found m => simp [GetEnhancedKeyUsage, hext, hp]
  · intro c l hext hp
    simp [GetEnhancedKeyUsage, hext, hp]
  · intro c hext hp
    simp [GetEnhancedKeyUsage, hext, hp]
  · intro b c hb hext hp
    simp [DoesSignatureCertContainStoreEKU, GetCertContext, hb,
      GetEnhancedKeyUsage, hext, hp]
  · intro b c hb hext hp
    simp [DoesSignatureCertContainStoreEKU, GetCertContext, hb,
      GetEnhancedKeyUsage, hext, hp]

/-- A certificate with no extension-level EKU and the store OID in its
property-level EKU, for the C5 witness. -/
def c5wcert : Cert :=
  { issuer := "CN=I5w", subject := "CN=E5w", serial := "5w",
    basicConstraints := .decoded false, verifySubjectCallOk := true,
    selfSigVerifies := true, extEKU := .notFound,
    propEKU := .found [OID.WindowsStore], chain := none }

/-- Blob resolving to `c5wcert` on the certificate path. -/
def c5wblob : Blob :=
  { pkcs7Signed := none, certOrPkcs7 := some (.cert, [c5wcert]) }

/-- C5 witness: the amended statement applied at a concrete certificate
with absent extension EKU and the store OID in the property EKU. -/
theorem C5_witness :
    GetEnhancedKeyUsage c5wcert = .ok (true, [OID.WindowsStore]) ∧
    DoesSignatureCertContainStoreEKU c5wblob = .ok true :=
  ⟨C5_eku_precedence.2.1 c5wcert [OID.WindowsStore] rfl rfl,
   C5_eku_precedence.2.2.2.2 c5wblob c5wcert rfl rfl rfl⟩

/-- C6: on a blob whose reported content type is PKCS7 (signed or
unsigned), the signer resolver enumerates the store in order, skips every
certificate that is self-signed or a CA, and returns the first that is
neither — so a returned certificate is never self-signed and never a CA,
and every certificate enumerated before it was self-signed or a CA; when
every certificate is self-signed or a CA, it returns none. -/
theorem C6_signer_resolver (b : Blob) (ct : ContentType) (certs : List Cert)
    (hb : b.certOrPkcs7 = some (ct, certs))
    (hct : ct = .pkcs7Signed ∨ ct = .pkcs7Unsigned) :
    (∀ c : Cert, GetCertContext b = .ok (some c) →
      IsCertificateSelfSigned c 0 = false ∧ IsCACert c = false ∧
      ∃ l1 l2, certs = l1 ++ c :: l2 ∧
        ∀ x ∈ l1, (IsCertificateSelfSigned x 0 = true ∨ IsCACert x = true)) ∧
    ((∀ c ∈ certs, IsCertificateSelfSigned c 0 = true ∨ IsCACert c = true) →
      GetCertContext b = .ok none) := by
  have hcd : ¬ ct = ContentType.cert := by
    rcases hct with rfl | rfl <;> decide
  constructor
  · intro c hc
    unfold GetCertContext at hc
    rw [hb] at hc
    dsimp only at hc
    rw [if_neg hcd] at hc
    have hfind :
        certs.find? (fun c => !(IsCertificateSelfSigned c 0 || IsCACert c)) =
          some c := by
      injection hc
    have hp := List.find?_some hfind
    simp at hp
    obtain ⟨l1, l2, hsplitEq, hall⟩ := find?_split _ certs c hfind
    refine ⟨hp.1, hp.2, l1, l2, hsplitEq, ?_⟩
    intro x hx
    have hx2 := hall x hx
    simp at hx2
    cases hss : IsCertificateSelfSigned x 0 with
    | false => exact Or.inr (hx2 hss)
    | true => exact Or.inl rfl
  · intro hall
    unfold GetCertContext
    rw [hb]
    dsimp only
    rw [if_neg hcd]
    have hnone :
        certs.find? (fun c => !(IsCertificateSelfSigned c 0 || IsCACert c)) =
          none := by
      rw [List.find?_eq_none]
      intro x hx
      have hx2 := hall x hx
      simp
      intro hss
      rcases hx2 with h | h
      · rw [hss] at h
        exact Bool.noConfusion h
      · exact h
    rw [hnone]

/-- A CA certificate placed first in the store enumeration. -/
def c6ca : Cert :=
  { issuer := "CN=Root6", subject := "CN=CA6", serial := "6a",
    basicConstraints := .decoded true, verifySubjectCallOk := true,
    selfSigVerifies := true, extEKU := .notFound, propEKU := .notFound,
    chain := none }

/-- A non-CA, non-self-signed end-entity certificate enumerated second. -/
def c6good : Cert :=
  { issuer := "CN=CA6", subject := "CN=EE6", serial := "6b",
    basicConstraints := .decoded false, verifySubjectCallOk := true,
    selfSigVerifies := true, extEKU := .notFound, propEKU := .notFound,
    chain := none }

/-- A PKCS7 blob whose store holds the CA certificate before the
end-entity. -/
def c6blob : Blob :=
  { pkcs7Signed := none, certOrPkcs7 := some (.pkcs7Signed, [c6ca, c6good]) }

/-- C6 witness: on the concrete two-certificate bundle the resolver skips
the CA and the returned certificate is neither self-signed nor a CA. -/
theorem C6_witness :
    IsCertificateSelfSigned c6good 0 = false ∧ IsCACert c6good = false :=
  ⟨((C6_signer_resolver c6blob .pkcs7Signed [c6ca, c6good] rfl
      (Or.inl rfl)).1 c6good rfl).1,
   ((C6_signer_resolver c6blob .pkcs7Signed [c6ca, c6good] rfl
      (Or.inl rfl)).1 c6good rfl).2.1⟩

/-- C7: on the chain-building path the signer certificate is located by
exact (issuer, serialNumber) match against the extracted signer info: the
operation fails with `SignatureInvalid` when the signer info is absent,
when its reported size is zero or at least `STRSAFE_MAX_CCH`, and when no
certificate in the store matches the identity; when it succeeds, some
certificate of the store matches the identity exactly and its chain is the
result. -/
theorem C7_signer_identity (b : Blob) (v : Pkcs7View)
    (hv : b.pkcs7Signed = some v) :
    (v.signerInfoSize = none → GetCertChainContext b = .error .SignatureInvalid) ∧
    (∀ sz, v.signerInfoSize = some sz → (sz = 0 ∨ sz ≥ STRSAFE_MAX_CCH) →
      GetCertChainContext b = .error .SignatureInvalid) ∧
    (findCertByIdentity v.certs v.signerIssuer v.signerSerial = none →
      GetCertChainContext b = .error .SignatureInvalid) ∧
    (∀ ch, GetCertChainContext b = .ok ch →
      ∃ c, c ∈ v.certs ∧ c.issuer = v.signerIssuer ∧
        c.serial = v.signerSerial ∧ c.chain = some ch) := by
  refine ⟨?_, ?_, ?_, ?_⟩
  · intro h
    unfold GetCertChainContext
    rw [hv]
    dsimp only
    rw [h]
  · intro sz hsz hguard
    unfold GetCertChainContext
    rw [hv]
    dsimp only
    rw [hsz]
    dsimp only
    rw [if_pos hguard]
  · intro hfind
    unfold GetCertChainContext
    rw [hv]
    dsimp only
    cases hsz : v.signerInfoSize with
    | none => rfl
    | some sz =>
      dsimp only
      by_cases hguard : sz = 0 ∨ sz ≥ STRSAFE_MAX_CCH
      · rw [if_pos hguard]
      · rw [if_neg hguard]
        by_cases hsc : ¬ v.signerSecondCallOk = true
        · rw [if_pos hsc]
        · rw [if_neg hsc, hfind]
  · intro ch hok
    unfold GetCertChainContext at hok
    rw [hv] at hok
    dsimp only at hok
    rcases hsz : v.signerInfoSize with _ | sz
    · rw [hsz] at hok
      exact Except.noConfusion hok
    · rw [hsz] at hok
      dsimp only at hok
      by_cases hguard : sz = 0 ∨ sz ≥ STRSAFE_MAX_CCH
      · rw [if_pos hguard] at hok
        exact Except.noConfusion hok
      · rw [if_neg hguard] at hok
        by_cases hsc : ¬ v.signerSecondCallOk = true
        · rw [if_pos hsc] at hok
          exact Except.noConfusion hok
        · rw [if_neg hsc] at hok
          rcases hfind : findCertByIdentity v.certs v.signerIssuer v.signerSerial
            with _ | c
          · rw [hfind] at hok
            exact Except.noConfusion hok
          · rw [hfind] at hok
            dsimp only at hok
            rcases hchain : c.chain with _ | ch2
            · rw [hchain] at hok
              exact Except.noConfusion hok
            · rw [hchain] at hok
              dsimp only at hok
              have hch : ch2 = ch := by injection hok
              subst hch
              unfold findCertByIdentity at hfind
              have hmem := List.mem_of_find?_eq_some hfind
              have hp := List.find?_some hfind
              simp only [Bool.and_eq_true, beq_iff_eq] at hp
              exact ⟨c, hmem, hp.1, hp.2, hchain⟩

/-- A signed-message view reporting a zero-size signer info. -/
def c7view : Pkcs7View :=
  { certs := [], signerInfoSize := some 0, signerSecondCallOk := true,
    signerIssuer := "CN=I7", signerSerial := "07" }

/-- Blob around `c7view`. -/
def c7blob : Blob := { pkcs7Signed := some c7view, certOrPkcs7 := none }

/-- C7 witness: the statement applied at a concrete zero-size signer
info. -/
theorem C7_witness : GetCertChainContext c7blob = .error .SignatureInvalid :=
  (C7_signer_identity c7blob c7view rfl).2.1 0 rfl (Or.inl rfl)

/-- C10: the self-signed test returns true only when the issuer name equals
the subject name and the self-signature verification call succeeded with
the signature flag cleared; a certificate whose issuer equals its subject
but whose self-signature does not verify is classified as not self-signed,
and (when also not a CA) is selected by the signer resolver as the
end-entity candidate. -/
theorem C10_self_signed_needs_verified_signature :
    (∀ (c : Cert) (fl : Nat), IsCertificateSelfSigned c fl = true →
      c.issuer = c.subject ∧ c.verifySubjectCallOk = true ∧
        c.selfSigVerifies = true) ∧
    (∀ c : Cert, c.issuer = c.subject → c.selfSigVerifies = false →
      IsCertificateSelfSigned c 0 = false) ∧
    (∀ (c : Cert) (rest : List Cert) (b : Blob),
      c.issuer = c.subject → c.selfSigVerifies = false → IsCACert c = false →
      b.certOrPkcs7 = some (.pkcs7Signed, c :: rest) →
      GetCertContext b = .ok (some c)) := by
  have part2 : ∀ c : Cert, c.issuer = c.subject → c.selfSigVerifies = false →
      IsCertificateSelfSigned c 0 = false := by
    intro c h1 h2
    simp [IsCertificateSelfSigned, h1, h2]
  refine ⟨?_, part2, ?_⟩
  · intro c fl h
    unfold IsCertificateSelfSigned at h
    split at h
    · exact absurd h (by simp)
    · split at h
      · exact absurd h (by simp)
      · split at h
        · exact absurd h (by simp)
        · rename_i hfl hns hnv
          push_neg at hns hnv
          exact ⟨hns, hnv.1, hnv.2⟩
  · intro c rest b h1 h2 hca hb
    unfold GetCertContext
    rw [hb]
    dsimp only
    rw [if_neg (by decide),
      List.find?_cons_of_pos _ (by simp [part2 c h1 h2, hca])]

/-- A certificate whose issuer equals its subject but whose self-signature
does not verify, and which is not a CA. -/
def c10cert : Cert :=
  { issuer := "CN=X10", subject := "CN=X10", serial := "10",
    basicConstraints := .decoded false, verifySubjectCallOk := true,
    selfSigVerifies := false, extEKU := .notFound, propEKU := .notFound,
    chain := none }

/-- A PKCS7 blob whose store holds only `c10cert`. -/
def c10blob : Blob :=
  { pkcs7Signed := none, certOrPkcs7 := some (.pkcs7Signed, [c10cert]) }

/-- C10 witness: the statement applied at the concrete certificate with
matching names and failing self-signature. -/
theorem C10_witness :
    IsCertificateSelfSigned c10cert 0 = false ∧
    GetCertContext c10blob = .ok (some c10cert) :=
  ⟨C10_self_signed_needs_verified_signature.2.1 c10cert rfl rfl,
   C10_self_signed_needs_verified_signature.2.2 c10cert [] c10blob rfl rfl rfl rfl⟩

end xPlat
